import Mathlib

/-!
Verification of the state-reconciliation engine of the GNS3 Ansible
collection (modules gns3_node, gns3_project, gns3_snapshot).

The Python modules are shallowly embedded: every remote interaction
(session creation, fetches, mutations, sleeps) is recorded as an event in
a trace, and the behaviour of the remote server / gns3fy client is an
abstract environment of functions supplied as a parameter, so theorems
quantify over every possible remote behaviour.
-/

set_option autoImplicit false

namespace GNS3

/-- A node as observed through the gns3fy client: the engine only ever
inspects its name and its cached status string. -/
structure Node where
  name : String
  status : String
  deriving DecidableEq, Repr

/-- A project as observed through the gns3fy client: status string plus the
enumerated list of its nodes. -/
structure Project where
  status : String
  nodes : List Node
  deriving DecidableEq, Repr

/-- A name-or-id reference, as produced by the modules' resolution code
(`if project_name is not None: ... elif project_id is not None: ...`). -/
inductive Ref where
  | byName (s : String)
  | byId (s : String)
  deriving DecidableEq, Repr

/-- Reference resolution exactly as the modules write it: the name branch is
tested first, so a supplied name wins over a supplied id; both absent gives
no reference. -/
def resolveRef : Option String → Option String → Option Ref
  | some n, _ => some (Ref.byName n)
  | none, some i => some (Ref.byId i)
  | none, none => none

/-- Events of one gns3_node module run: remote calls plus blocking sleeps. -/
inductive NEvent where
  | session
  | getProject (r : Ref)
  | openProject
  | getNode (r : Ref)
  | start
  | stop
  | suspend
  | reload
  | get
  | sleep (secs : Nat)
  deriving DecidableEq, Repr

/-- `state_verification` from gns3_node.py: compares the node status to the
expected state, issues the corresponding action (with a single optional
retry), and returns the changed flag.  `act` is the abstract remote
behaviour: the node object as mutated by each gns3fy call. -/
def state_verification (act : NEvent → Node → Node) (expected_state : String)
    (node : Node) (retry : Bool) (poll_wait_time : Nat) :
    Bool × Node × List NEvent :=
  if expected_state = "started" ∧ node.status ≠ "started" then
    let n1 := act NEvent.start node
    if n1.status ≠ "started" ∧ retry = true then
      (true, act NEvent.start n1, [NEvent.start, NEvent.start])
    else
      (true, n1, [NEvent.start])
  else if expected_state = "stopped" ∧ node.status ≠ "stopped" then
    let n1 := act NEvent.stop node
    if n1.status ≠ "stopped" ∧ retry = true then
      (true, act NEvent.stop n1, [NEvent.stop, NEvent.stop])
    else
      (true, n1, [NEvent.stop])
  else if expected_state = "suspended" ∧ node.status ≠ "suspended" then
    let n1 := act NEvent.suspend node
    if n1.status ≠ "suspended" ∧ retry = true then
      (true, act NEvent.suspend n1, [NEvent.suspend, NEvent.suspend])
    else
      (true, n1, [NEvent.suspend])
  else if expected_state = "reload" then
    let n1 := act NEvent.reload node
    let n2 := act NEvent.get n1
    if n2.status ≠ "started" ∧ retry = true then
      (true, act NEvent.start n2,
        [NEvent.reload, NEvent.sleep poll_wait_time, NEvent.get, NEvent.start])
    else
      (true, n2, [NEvent.reload, NEvent.sleep poll_wait_time, NEvent.get])
  else
    (false, node, [])

/-- The start/stop/suspend remote action corresponding to a desired
steady state. -/
def actionFor : String → NEvent
  | "started" => NEvent.start
  | "stopped" => NEvent.stop
  | "suspended" => NEvent.suspend
  | _ => NEvent.get

/-- Module exit: `exit_json` with a changed flag, or `fail_json` with a
message. -/
inductive Outcome where
  | ok (changed : Bool)
  | failed (msg : String)
  deriving DecidableEq, Repr

/-- A nodes_spec entry: the engine only reads its `name`; `node_type` and
`template` are passed through to the remote create call. -/
structure NodeSpec where
  name : String
  node_type : String
  template : String
  deriving DecidableEq, Repr

/-- A links_spec entry: the list of endpoint strings unpacked into the
remote create_link call (e.g. node_a, port_a, node_b, port_b). -/
abbrev LinkSpec : Type := List String

/-- Events of one gns3_project module run. -/
inductive PEvent where
  | session
  | getProject (r : Ref)
  | projectRefresh
  | openProject
  | closeProject
  | createProject
  | deleteProject
  | startNodesBulk (pollWait : Nat)
  | stopNodesBulk (pollWait : Nat)
  | nodeStart (name : String)
  | nodeStop (name : String)
  | createNode (name : String)
  | createLink (spec : LinkSpec)
  | sleep (secs : Nat)
  deriving DecidableEq, Repr

/-- Remote calls that mutate server state, as opposed to session setup,
fetches and sleeps. -/
def isMutation : PEvent → Bool
  | PEvent.session => false
  | PEvent.getProject _ => false
  | PEvent.projectRefresh => false
  | PEvent.sleep _ => false
  | _ => true

/-- Test whether the first character list leads the second one. -/
def charsLead : List Char → List Char → Bool
  | [], _ => true
  | _ :: _, [] => false
  | a :: as, b :: bs => a == b && charsLead as bs

/-- Test whether the first character list occurs inside the second one. -/
def charsHave (needle : List Char) : List Char → Bool
  | [] => charsLead needle []
  | c :: cs => charsLead needle (c :: cs) || charsHave needle cs

/-- Python's `needle in hay` substring test on strings. -/
def strHasSub (hay needle : String) : Bool :=
  charsHave needle.data hay.data

/-- The benign-conflict marker recognised by create_link in
gns3_project.py. -/
def portInUseMsg : String := "At least one port is used"

/-- One possible outcome of the remote `project.create_link` call: success
(with the mutated project), a ValueError with a message, or any other
exception with a message. -/
inductive LinkCallResult where
  | ok (p : Project)
  | valueError (msg : String)
  | otherError (msg : String)

/-- `create_link` from gns3_project.py given the outcome of the remote
call: a ValueError containing "At least one port is used" is swallowed and
reported as not-created; every other exception is fatal (fail_json). -/
def create_link (res : LinkCallResult) (project : Project) :
    Except String (Bool × Project) :=
  match res with
  | LinkCallResult.ok p1 => Except.ok (true, p1)
  | LinkCallResult.valueError msg =>
    if strHasSub msg portInUseMsg then Except.ok (false, project)
    else Except.error msg
  | LinkCallResult.otherError msg => Except.error msg

/-- The abstract remote behaviour seen by gns3_project.py: each gns3fy
call as a function of the project object it is invoked on. -/
structure Env where
  getProject : Ref → Except String Project
  openP : Project → Project
  closeP : Project → Project
  createP : Ref → Project
  refetch : Project → Project
  createNodeR : NodeSpec → Project → Except String Project
  createLinkR : LinkSpec → Project → LinkCallResult
  deleteP : Project → Project

/-- The gns3_project module parameters relevant to the engine. -/
structure Params where
  state : String
  projectName : Option String
  projectId : Option String
  nodesState : Option String
  nodesStrategy : String
  nodesDelay : Nat
  pollWaitTime : Nat
  nodesSpec : Option (List NodeSpec)
  linksSpec : Option (List LinkSpec)
  checkMode : Bool

/-- `nodes_state_verification` from gns3_project.py: triggers only when at
least one node sits in the opposite steady state; strategy `all` issues a
single bulk call, strategy `one_by_one` walks the nodes in observed order,
acting on each node not already in the desired state and sleeping
`nodes_delay` after each action. -/
def nodes_state_verification (expected_nodes_state nodes_strategy : String)
    (nodes_delay poll_wait_time : Nat) (project : Project) :
    Bool × List PEvent :=
  let nodes_statuses := project.nodes.map (fun n => n.status)
  if expected_nodes_state = "started" ∧ ∃ st ∈ nodes_statuses, st = "stopped" then
    if nodes_strategy = "all" then
      (true, [PEvent.startNodesBulk poll_wait_time])
    else if nodes_strategy = "one_by_one" then
      (true, project.nodes.flatMap (fun node =>
        if node.status ≠ "started" then
          [PEvent.nodeStart node.name, PEvent.sleep nodes_delay]
        else []))
    else (true, [])
  else if expected_nodes_state = "stopped" ∧ ∃ st ∈ nodes_statuses, st = "started" then
    if nodes_strategy = "all" then
      (true, [PEvent.stopNodesBulk poll_wait_time])
    else if nodes_strategy = "one_by_one" then
      (true, project.nodes.flatMap (fun node =>
        if node.status ≠ "stopped" then
          [PEvent.nodeStop node.name, PEvent.sleep nodes_delay]
        else []))
    else (true, [])
  else
    (false, [])

/-- The nodes_spec loop of the `present`-on-existing-project branch of
gns3_project.main: the names already present are computed once, before the
loop; each spec whose name is absent from that list triggers an open plus
a create_node (fatal on failure) and flips changed to true. -/
def createNodesLoop (env : Env) (already : List String) :
    List NodeSpec → Project → Bool →
    Except String (Bool × Project) × List PEvent
  | [], proj, changed => (Except.ok (changed, proj), [])
  | spec :: rest, proj, changed =>
    if spec.name ∈ already then
      createNodesLoop env already rest proj changed
    else
      let proj1 := env.openP proj
      match env.createNodeR spec proj1 with
      | Except.error msg =>
        (Except.error msg, [PEvent.openProject, PEvent.createNode spec.name])
      | Except.ok proj2 =>
        let r := createNodesLoop env already rest proj2 true
        (r.1, PEvent.openProject :: PEvent.createNode spec.name :: r.2)

/-- The links_spec loop of the `present`-on-existing-project branch of
gns3_project.main: each spec re-opens and re-fetches the project, then runs
create_link; a created link flips changed to true, a port-in-use rejection
leaves changed alone and continues, any other error aborts. -/
def createLinksLoop (env : Env) :
    List LinkSpec → Project → Bool →
    Except String (Bool × Project) × List PEvent
  | [], proj, changed => (Except.ok (changed, proj), [])
  | spec :: rest, proj, changed =>
    let proj1 := env.refetch (env.openP proj)
    match create_link (env.createLinkR spec proj1) proj1 with
    | Except.error msg =>
      (Except.error msg,
        [PEvent.openProject, PEvent.projectRefresh, PEvent.createLink spec])
    | Except.ok (created, proj2) =>
      let r := createLinksLoop env rest proj2 (changed || created)
      (r.1, PEvent.openProject :: PEvent.projectRefresh ::
        PEvent.createLink spec :: r.2)

/-- The nodes_spec loop of the `present`-on-fresh-project branch: every
spec is created unconditionally, fatal on failure. -/
def createNodesFresh (env : Env) :
    List NodeSpec → Project → Except String Project × List PEvent
  | [], proj => (Except.ok proj, [])
  | spec :: rest, proj =>
    match env.createNodeR spec proj with
    | Except.error msg => (Except.error msg, [PEvent.createNode spec.name])
    | Except.ok proj1 =>
      let r := createNodesFresh env rest proj1
      (r.1, PEvent.createNode spec.name :: r.2)

/-- The links_spec loop of the `present`-on-fresh-project branch: every
spec runs create_link (port-in-use swallowed, other errors fatal); the
created flag is ignored because a fresh creation is changed anyway. -/
def createLinksFresh (env : Env) :
    List LinkSpec → Project → Except String Project × List PEvent
  | [], proj => (Except.ok proj, [])
  | spec :: rest, proj =>
    match create_link (env.createLinkR spec proj) proj with
    | Except.error msg => (Except.error msg, [PEvent.createLink spec])
    | Except.ok (_, proj1) =>
      let r := createLinksFresh env rest proj1
      (r.1, PEvent.createLink spec :: r.2)

/-- The `state == "opened"` branch of gns3_project.main on an existing
project. -/
def openedExisting (env : Env) (p : Params) (proj : Project) :
    Outcome × List PEvent :=
  if proj.status ≠ "opened" then
    let proj1 := env.openP proj
    match p.nodesState with
    | some ns =>
      let r := nodes_state_verification ns p.nodesStrategy p.nodesDelay
        p.pollWaitTime proj1
      (Outcome.ok r.1, PEvent.openProject :: r.2)
    | none => (Outcome.ok true, [PEvent.openProject])
  else
    match p.nodesState with
    | some ns =>
      let r := nodes_state_verification ns p.nodesStrategy p.nodesDelay
        p.pollWaitTime proj
      (Outcome.ok r.1, r.2)
    | none => (Outcome.ok false, [])

/-- The `state == "present"` branch of gns3_project.main on an existing
project: node phase (names observed once, up front) then link phase. -/
def presentExisting (env : Env) (p : Params) (proj : Project) :
    Outcome × List PEvent :=
  let already := proj.nodes.map (fun n => n.name)
  let r1 :=
    match p.nodesSpec with
    | some specs => createNodesLoop env already specs proj false
    | none => (Except.ok (false, proj), [])
  match r1 with
  | (Except.error msg, tr1) => (Outcome.failed msg, tr1)
  | (Except.ok (changed1, proj1), tr1) =>
    let r2 :=
      match p.linksSpec with
      | some lspecs => createLinksLoop env lspecs proj1 changed1
      | none => (Except.ok (changed1, proj1), [])
    match r2 with
    | (Except.error msg, tr2) => (Outcome.failed msg, tr1 ++ tr2)
    | (Except.ok (changed2, _), tr2) => (Outcome.ok changed2, tr1 ++ tr2)

/-- The `state == "present"` branch of gns3_project.main when the project
does not resolve: create it fresh, then create every declared node and
link; changed is unconditionally true on success. -/
def presentFresh (env : Env) (p : Params) (ref : Ref) :
    Outcome × List PEvent :=
  let proj0 := env.createP ref
  let r1 :=
    match p.nodesSpec with
    | some specs => createNodesFresh env specs proj0
    | none => (Except.ok proj0, [])
  match r1 with
  | (Except.error msg, tr1) => (Outcome.failed msg, PEvent.createProject :: tr1)
  | (Except.ok proj1, tr1) =>
    let r2 :=
      match p.linksSpec with
      | some lspecs => createLinksFresh env lspecs proj1
      | none => (Except.ok proj1, [])
    match r2 with
    | (Except.error msg, tr2) =>
      (Outcome.failed msg, PEvent.createProject :: (tr1 ++ tr2))
    | (Except.ok _, tr2) =>
      (Outcome.ok true, PEvent.createProject :: (tr1 ++ tr2))

/-- The `state == "absent"` branch of gns3_project.main on an existing
project: open if needed, stop all nodes with zero poll wait, delete. -/
def absentExisting (_env : Env) (proj : Project) : Outcome × List PEvent :=
  if proj.status ≠ "opened" then
    (Outcome.ok true,
      [PEvent.openProject, PEvent.stopNodesBulk 0, PEvent.deleteProject])
  else
    (Outcome.ok true, [PEvent.stopNodesBulk 0, PEvent.deleteProject])

/-- State dispatch of gns3_project.main, after the project fetch decided
existence. -/
def dispatch (env : Env) (p : Params) (ref : Ref)
    (prRes : Except String Project) : Outcome × List PEvent :=
  match p.state, prRes with
  | "opened", Except.ok proj => openedExisting env p proj
  | "opened", Except.error reason => (Outcome.failed reason, [])
  | "closed", Except.ok proj =>
    if proj.status ≠ "closed" then (Outcome.ok true, [PEvent.closeProject])
    else (Outcome.ok false, [])
  | "closed", Except.error reason => (Outcome.failed reason, [])
  | "present", Except.ok proj => presentExisting env p proj
  | "present", Except.error _ => presentFresh env p ref
  | "absent", Except.ok proj => absentExisting env proj
  | "absent", Except.error _ => (Outcome.ok false, [])
  | _, _ => (Outcome.ok false, [])

/-- The required_one_of failure message of AnsibleModule for the project
reference pair. -/
def projectRefMissingMsg : String :=
  "one of the following is required: project_name, project_id"

/-- gns3_project.main: parameter validation (required_one_of), the
check-mode early exit, session setup, the project fetch, and the state
dispatch. -/
def mainProject (env : Env) (p : Params) : Outcome × List PEvent :=
  if p.projectName = none ∧ p.projectId = none then
    (Outcome.failed projectRefMissingMsg, [])
  else if p.checkMode = true then
    (Outcome.ok false, [])
  else
    match resolveRef p.projectName p.projectId with
    | none => (Outcome.failed projectRefMissingMsg, [])
    | some ref =>
      let r := dispatch env p ref (env.getProject ref)
      (r.1, PEvent.session :: PEvent.getProject ref :: r.2)

/-- The abstract remote behaviour seen by gns3_node.py. -/
structure NodeEnv where
  getProject : Ref → Except String Project
  openP : Project → Project
  getNode : Ref → Project → Except String (Option Node)
  act : NEvent → Node → Node

/-- The gns3_node module parameters relevant to the engine. -/
structure NodeParams where
  state : String
  projectName : Option String
  projectId : Option String
  nodeName : Option String
  nodeId : Option String
  retry : Bool
  pollWaitTime : Nat
  forceProjectOpen : Bool

/-- Exit of one gns3_node run: changed flag plus the returned node data, or
a failure message. -/
inductive NodeOutcome where
  | ok (changed : Bool) (node : Node)
  | failed (msg : String)
  deriving DecidableEq, Repr

/-- The required_one_of failure message of AnsibleModule for the node
reference pair. -/
def nodeRefMissingMsg : String :=
  "one of the following is required: node_name, node_id"

/-- The fail_json message of gns3_node.main when get_node returns None. -/
def nodeNotFoundMsg : String := "Could not retrieve node. Check name"

/-- gns3_node.main: parameter validation (two required_one_of pairs),
session setup, project fetch, the optional force open, node retrieval, and
the call to state_verification. -/
def mainNode (env : NodeEnv) (p : NodeParams) : NodeOutcome × List NEvent :=
  if p.projectName = none ∧ p.projectId = none then
    (NodeOutcome.failed projectRefMissingMsg, [])
  else if p.nodeName = none ∧ p.nodeId = none then
    (NodeOutcome.failed nodeRefMissingMsg, [])
  else
    match resolveRef p.projectName p.projectId,
        resolveRef p.nodeName p.nodeId with
    | some pref, some nref =>
      let pre := [NEvent.session, NEvent.getProject pref]
      match env.getProject pref with
      | Except.error e => (NodeOutcome.failed e, pre)
      | Except.ok proj =>
        let opened :=
          if proj.status ≠ "opened" ∧ p.forceProjectOpen = true then
            (env.openP proj, [NEvent.openProject])
          else (proj, ([] : List NEvent))
        match env.getNode nref opened.1 with
        | Except.error e =>
          (NodeOutcome.failed e, pre ++ opened.2 ++ [NEvent.getNode nref])
        | Except.ok none =>
          (NodeOutcome.failed nodeNotFoundMsg,
            pre ++ opened.2 ++ [NEvent.getNode nref])
        | Except.ok (some node) =>
          let r := state_verification env.act p.state node p.retry p.pollWaitTime
          (NodeOutcome.ok r.1 r.2.1,
            pre ++ opened.2 ++ [NEvent.getNode nref] ++ r.2.2)
    | _, _ => (NodeOutcome.failed projectRefMissingMsg, [])

/-- A snapshot as observed through the gns3fy client. -/
structure Snapshot where
  name : String
  snapshot_id : String
  created_at : Nat
  deriving DecidableEq, Repr

/-- Events of one gns3_snapshot module run. -/
inductive SEvent where
  | session
  | getProject (r : Ref)
  | getSnapshot
  | createSnapshot (name : String)
  | deleteSnapshot
  | restoreSnapshot
  deriving DecidableEq, Repr

/-- Modelled from the spec: the snapshot lookup `project.get_snapshot(name=...,
snapshot_id=...)` lives in the external gns3fy library, whose code is not
part of this repository; the spec states that the name takes precedence
when both are supplied, so the lookup reference is resolved exactly like
the in-repository name-over-id resolutions. -/
def snapshotLookupRef (name snapshot_id : Option String) : Option Ref :=
  resolveRef name snapshot_id

/-- The abstract remote behaviour seen by gns3_snapshot.py.  `getSnapshot2`
is the re-lookup the module performs right after creating a snapshot. -/
structure SnapEnv where
  getProject : Ref → Except String Project
  getSnapshot : Ref → Except String (Option Snapshot)
  createSnapshot : String → Except String Unit
  getSnapshot2 : Ref → Except String (Option Snapshot)
  deleteSnapshot : Except String Unit
  restoreSnapshot : Except String Unit

/-- The gns3_snapshot module parameters relevant to the engine. -/
structure SnapParams where
  state : String
  projectName : Option String
  projectId : Option String
  snapshotName : Option String
  snapshotId : Option String

/-- The required_one_of failure message of AnsibleModule for the snapshot
reference pair. -/
def snapshotRefMissingMsg : String :=
  "one of the following is required: snapshot_name, snapshot_id"

/-- The fail_json message of gns3_snapshot.main on restore of a missing
snapshot. -/
def snapshotNotFoundMsg : String := "Snapshot not found"

/-- The fail_json message of gns3_snapshot.main when creation is requested
without a snapshot name. -/
def snapshotNameNeededMsg : String :=
  "Need to specify snapshot name for creation"

/-- gns3_snapshot.main: parameter validation (two required_one_of pairs),
session setup, project fetch, snapshot lookup and the
present/absent/restore dispatch. -/
def mainSnapshot (env : SnapEnv) (p : SnapParams) : Outcome × List SEvent :=
  if p.projectName = none ∧ p.projectId = none then
    (Outcome.failed projectRefMissingMsg, [])
  else if p.snapshotName = none ∧ p.snapshotId = none then
    (Outcome.failed snapshotRefMissingMsg, [])
  else
    match resolveRef p.projectName p.projectId,
        snapshotLookupRef p.snapshotName p.snapshotId with
    | some pref, some sref =>
      match env.getProject pref with
      | Except.error e =>
        (Outcome.failed e, [SEvent.session, SEvent.getProject pref])
      | Except.ok _proj =>
        match env.getSnapshot sref with
        | Except.error e =>
          (Outcome.failed e,
            [SEvent.session, SEvent.getProject pref, SEvent.getSnapshot])
        | Except.ok snapOpt =>
          let pre := [SEvent.session, SEvent.getProject pref, SEvent.getSnapshot]
          match p.state, snapOpt with
          | "present", none =>
            match p.snapshotName with
            | none => (Outcome.failed snapshotNameNeededMsg, pre)
            | some nm =>
              match env.createSnapshot nm with
              | Except.error e =>
                (Outcome.failed e, pre ++ [SEvent.createSnapshot nm])
              | Except.ok _ =>
                match env.getSnapshot2 sref with
                | Except.error e =>
                  (Outcome.failed e,
                    pre ++ [SEvent.createSnapshot nm, SEvent.getSnapshot])
                | Except.ok _ =>
                  (Outcome.ok true,
                    pre ++ [SEvent.createSnapshot nm, SEvent.getSnapshot])
          | "present", some _ => (Outcome.ok false, pre)
          | "absent", some _ =>
            match env.deleteSnapshot with
            | Except.error e =>
              (Outcome.failed e, pre ++ [SEvent.deleteSnapshot])
            | Except.ok _ =>
              (Outcome.ok true, pre ++ [SEvent.deleteSnapshot])
          | "absent", none => (Outcome.ok false, pre)
          | "restore", none => (Outcome.failed snapshotNotFoundMsg, pre)
          | "restore", some _ =>
            match env.restoreSnapshot with
            | Except.error e =>
              (Outcome.failed e, pre ++ [SEvent.restoreSnapshot])
            | Except.ok _ =>
              (Outcome.ok true, pre ++ [SEvent.restoreSnapshot])
          | _, _ => (Outcome.ok false, pre)
    | _, _ => (Outcome.failed projectRefMissingMsg, [])

/-! ### Concrete environments and parameter sets used by witnesses -/

/-- A remote on which the project lookup fails and every other call is
inert. -/
def envNone : Env :=
  ⟨fun _ => Except.error "Project not found", id, id,
    fun _ => Project.mk "opened" [], id,
    fun _ pr => Except.ok pr, fun _ _ => LinkCallResult.ok (Project.mk "opened" []),
    id⟩

/-- A remote on which the project lookup returns the given project and
every mutation succeeds without altering it. -/
def envWith (proj : Project) : Env :=
  ⟨fun _ => Except.ok proj, id, id, fun _ => proj, id,
    fun _ pr => Except.ok pr, fun _ _ => LinkCallResult.ok proj, id⟩

/-! ### Theorems -/

/-- Claim C1: for a desired steady state s in started/stopped/suspended, a
node whose observed status already equals s gets no remote action and
changed=false; otherwise the corresponding action is issued once, is issued
exactly once more precisely when the post-action status still differs from
s and the retry flag is set, and changed=true is returned. -/
theorem node_converge_steady_state (act : NEvent → Node → Node) (node : Node)
    (retry : Bool) (pwt : Nat) (s : String)
    (hs : s = "started" ∨ s = "stopped" ∨ s = "suspended") :
    (node.status = s →
      state_verification act s node retry pwt = (false, node, [])) ∧
    (node.status ≠ s →
      state_verification act s node retry pwt =
        if (act (actionFor s) node).status ≠ s ∧ retry = true then
          (true, act (actionFor s) (act (actionFor s) node),
            [actionFor s, actionFor s])
        else
          (true, act (actionFor s) node, [actionFor s])) := by
  rcases hs with h | h | h <;> subst h <;>
    refine ⟨fun hst => ?_, fun hst => ?_⟩ <;>
    simp [state_verification, actionFor, hst]

/-- Witness for C1 at a node already in the desired state. -/
theorem node_converge_steady_state_witness :
    state_verification (fun _ n => n) "started" (Node.mk "r1" "started") false 5 =
      (false, Node.mk "r1" "started", []) :=
  (node_converge_steady_state (fun _ n => n) (Node.mk "r1" "started") false 5
    "started" (Or.inl rfl)).1 rfl

/-- Claim C4: desired state reload always issues the reload action, sleeps
poll_wait_time, re-fetches the node, issues one extra start exactly when the
re-fetched status is not started and retry is set, and always reports
changed=true. -/
theorem node_converge_reload (act : NEvent → Node → Node) (node : Node)
    (retry : Bool) (pwt : Nat) :
    state_verification act "reload" node retry pwt =
      if (act NEvent.get (act NEvent.reload node)).status ≠ "started" ∧ retry = true then
        (true, act NEvent.start (act NEvent.get (act NEvent.reload node)),
          [NEvent.reload, NEvent.sleep pwt, NEvent.get, NEvent.start])
      else
        (true, act NEvent.get (act NEvent.reload node),
          [NEvent.reload, NEvent.sleep pwt, NEvent.get]) := by
  simp [state_verification]

/-- Claim C2: bulk convergence to started is a no-op (changed=false, no
events) when no node status is exactly stopped, and symmetrically for
stopped; once triggered under the one_by_one strategy it walks the nodes in
observed order and, for each node not already in the desired state, issues
the individual action followed by a nodes_delay sleep. -/
theorem bulk_nodes_convergence (strategy : String) (nd pwt : Nat)
    (project : Project) :
    ((∀ n ∈ project.nodes, n.status ≠ "stopped") →
      nodes_state_verification "started" strategy nd pwt project = (false, [])) ∧
    ((∀ n ∈ project.nodes, n.status ≠ "started") →
      nodes_state_verification "stopped" strategy nd pwt project = (false, [])) ∧
    ((∃ n ∈ project.nodes, n.status = "stopped") →
      nodes_state_verification "started" "one_by_one" nd pwt project =
        (true, project.nodes.flatMap (fun node =>
          if node.status ≠ "started" then
            [PEvent.nodeStart node.name, PEvent.sleep nd]
          else []))) ∧
    ((∃ n ∈ project.nodes, n.status = "started") →
      nodes_state_verification "stopped" "one_by_one" nd pwt project =
        (true, project.nodes.flatMap (fun node =>
          if node.status ≠ "stopped" then
            [PEvent.nodeStop node.name, PEvent.sleep nd]
          else []))) := by
  refine ⟨fun h => ?_, fun h => ?_, fun h => ?_, fun h => ?_⟩ <;>
    simp [nodes_state_verification] <;>
    first
      | exact fun n hn hst => absurd hst (h n hn)
      | exact h

/-- Witness for C2: triggered one_by_one start over a stopped and an
already-started node acts on the stopped node only. -/
theorem bulk_nodes_convergence_witness :
    nodes_state_verification "started" "one_by_one" 2 5
        (Project.mk "opened" [Node.mk "a" "stopped", Node.mk "b" "started"]) =
      (true, [PEvent.nodeStart "a", PEvent.sleep 2]) := by
  have h := (bulk_nodes_convergence "one_by_one" 2 5
    (Project.mk "opened" [Node.mk "a" "stopped", Node.mk "b" "started"])).2.2.1
  rw [h ⟨Node.mk "a" "stopped", by simp, rfl⟩]
  rfl

/-- Claim C3: in the links_spec loop, a create rejected by a ValueError
carrying the port-in-use marker leaves the changed accumulator untouched
and continues with the remaining specs, while a ValueError without the
marker or any other exception aborts immediately with that message and
processes no further spec. -/
theorem link_create_conflict_policy (env : Env) (spec : LinkSpec)
    (rest : List LinkSpec) (proj : Project) (changed : Bool) (msg : String) :
    (env.createLinkR spec (env.refetch (env.openP proj)) =
        LinkCallResult.valueError msg →
      strHasSub msg portInUseMsg = true →
      createLinksLoop env (spec :: rest) proj changed =
        ((createLinksLoop env rest (env.refetch (env.openP proj)) changed).1,
          PEvent.openProject :: PEvent.projectRefresh ::
            PEvent.createLink spec ::
            (createLinksLoop env rest (env.refetch (env.openP proj)) changed).2)) ∧
    (env.createLinkR spec (env.refetch (env.openP proj)) =
        LinkCallResult.valueError msg →
      strHasSub msg portInUseMsg = false →
      createLinksLoop env (spec :: rest) proj changed =
        (Except.error msg,
          [PEvent.openProject, PEvent.projectRefresh, PEvent.createLink spec])) ∧
    (env.createLinkR spec (env.refetch (env.openP proj)) =
        LinkCallResult.otherError msg →
      createLinksLoop env (spec :: rest) proj changed =
        (Except.error msg,
          [PEvent.openProject, PEvent.projectRefresh, PEvent.createLink spec])) := by
  refine ⟨fun h hp => ?_, fun h hp => ?_, fun h => ?_⟩
  · simp [createLinksLoop, create_link, h, hp]
  · simp [createLinksLoop, create_link, h, hp]
  · simp [createLinksLoop, create_link, h]

/-- A remote on which every link create is rejected with the port-in-use
ValueError. -/
def envPortBusy : Env :=
  ⟨fun _ => Except.ok (Project.mk "opened" []), id, id,
    fun _ => Project.mk "opened" [], id,
    fun _ pr => Except.ok pr,
    fun _ _ => LinkCallResult.valueError portInUseMsg, id⟩

/-- Witness for C3: a port-in-use rejection on the first of two link specs
keeps the run going into the second spec with changed still false. -/
theorem link_create_conflict_policy_witness :
    createLinksLoop envPortBusy [["a", "eth0", "b", "eth0"], ["a", "eth1", "b", "eth1"]]
        (Project.mk "opened" []) false =
      ((createLinksLoop envPortBusy [["a", "eth1", "b", "eth1"]]
          (Project.mk "opened" []) false).1,
        PEvent.openProject :: PEvent.projectRefresh ::
          PEvent.createLink ["a", "eth0", "b", "eth0"] ::
          (createLinksLoop envPortBusy [["a", "eth1", "b", "eth1"]]
            (Project.mk "opened" []) false).2) :=
  (link_create_conflict_policy envPortBusy ["a", "eth0", "b", "eth0"]
    [["a", "eth1", "b", "eth1"]] (Project.mk "opened" []) false
    portInUseMsg).1 rfl (by decide)

/-- Claim C5: state absent on a project reference that does not resolve on
the remote exits successfully with changed=false, and the whole run issues
no mutating remote call. -/
theorem absent_missing_project_noop (env : Env) (p : Params) (ref : Ref)
    (reason : String)
    (hres : resolveRef p.projectName p.projectId = some ref)
    (hcm : p.checkMode = false)
    (hst : p.state = "absent")
    (hget : env.getProject ref = Except.error reason) :
    mainProject env p = (Outcome.ok false, [PEvent.session, PEvent.getProject ref]) ∧
    ∀ e ∈ (mainProject env p).2, isMutation e = false := by
  have hv : ¬(p.projectName = none ∧ p.projectId = none) := by
    rintro ⟨h1, h2⟩
    rw [h1, h2] at hres
    simp [resolveRef] at hres
  have hmain : mainProject env p =
      (Outcome.ok false, [PEvent.session, PEvent.getProject ref]) := by
    simp [mainProject, hv, hcm, hres, dispatch, hget, hst]
  refine ⟨hmain, ?_⟩
  rw [hmain]
  intro e he
  simp only [List.mem_cons, List.not_mem_nil, or_false] at he
  rcases he with rfl | rfl
  · rfl
  · rfl

/-- Witness for C5 on a concrete unresolvable project. -/
theorem absent_missing_project_noop_witness :
    mainProject envNone
        (Params.mk "absent" (some "ghost") none none "all" 10 5 none none false) =
      (Outcome.ok false, [PEvent.session, PEvent.getProject (Ref.byName "ghost")]) :=
  (absent_missing_project_noop envNone
    (Params.mk "absent" (some "ghost") none none "all" 10 5 none none false)
    (Ref.byName "ghost") "Project not found" rfl rfl rfl rfl).1

/-- Claim C6: snapshot state restore fails fatally without issuing the
restore call when the snapshot lookup finds nothing, and when the snapshot
exists every successful restore call exits with changed=true, whatever the
snapshot is. -/
theorem snapshot_restore_policy (env : SnapEnv) (p : SnapParams)
    (pref sref : Ref) (proj : Project)
    (hpr : resolveRef p.projectName p.projectId = some pref)
    (hsr : snapshotLookupRef p.snapshotName p.snapshotId = some sref)
    (hst : p.state = "restore")
    (hget : env.getProject pref = Except.ok proj) :
    (env.getSnapshot sref = Except.ok none →
      mainSnapshot env p = (Outcome.failed snapshotNotFoundMsg,
        [SEvent.session, SEvent.getProject pref, SEvent.getSnapshot]) ∧
      SEvent.restoreSnapshot ∉ (mainSnapshot env p).2) ∧
    (∀ snap : Snapshot, env.getSnapshot sref = Except.ok (some snap) →
      env.restoreSnapshot = Except.ok () →
      mainSnapshot env p = (Outcome.ok true,
        [SEvent.session, SEvent.getProject pref, SEvent.getSnapshot,
          SEvent.restoreSnapshot])) := by
  have hv1 : ¬(p.projectName = none ∧ p.projectId = none) := by
    rintro ⟨h1, h2⟩
    rw [h1, h2] at hpr
    simp [resolveRef] at hpr
  have hv2 : ¬(p.snapshotName = none ∧ p.snapshotId = none) := by
    rintro ⟨h1, h2⟩
    rw [h1, h2] at hsr
    simp [snapshotLookupRef, resolveRef] at hsr
  constructor
  · intro hsnap
    have hmain : mainSnapshot env p = (Outcome.failed snapshotNotFoundMsg,
        [SEvent.session, SEvent.getProject pref, SEvent.getSnapshot]) := by
      simp [mainSnapshot, hv1, hv2, hpr, hsr, hget, hsnap, hst]
    refine ⟨hmain, ?_⟩
    rw [hmain]
    simp
  · intro snap hsnap hrest
    simp [mainSnapshot, hv1, hv2, hpr, hsr, hget, hsnap, hrest, hst]

/-- A remote for the snapshot module on which the snapshot lookup finds
nothing. -/
def senvMissing : SnapEnv :=
  ⟨fun _ => Except.ok (Project.mk "opened" []),
    fun _ => Except.ok none, fun _ => Except.ok (),
    fun _ => Except.ok none, Except.ok (), Except.ok ()⟩

/-- Witness for C6: restore of a missing snapshot on a concrete remote. -/
theorem snapshot_restore_policy_witness :
    mainSnapshot senvMissing
        (SnapParams.mk "restore" (some "demo_lab") none (some "snap1") none) =
      (Outcome.failed snapshotNotFoundMsg,
        [SEvent.session, SEvent.getProject (Ref.byName "demo_lab"),
          SEvent.getSnapshot]) :=
  ((snapshot_restore_policy senvMissing
    (SnapParams.mk "restore" (some "demo_lab") none (some "snap1") none)
    (Ref.byName "demo_lab") (Ref.byName "snap1") (Project.mk "opened" [])
    rfl rfl rfl rfl).1 rfl).1

/-- Claim C9: when state opened finds the project existing but not opened
and a nodes run-state target is supplied, the open action is issued yet the
exit code carries only the node-convergence verdict, so with every node
already in the target state the module reports changed=false despite the
OpenProject mutation in the trace. -/
theorem opened_changed_reflects_nodes_only (env : Env) (p : Params)
    (ref : Ref) (proj : Project) (ns : String)
    (hres : resolveRef p.projectName p.projectId = some ref)
    (hcm : p.checkMode = false)
    (hst : p.state = "opened")
    (hget : env.getProject ref = Except.ok proj)
    (hstatus : proj.status ≠ "opened")
    (hns : p.nodesState = some ns)
    (hns2 : ns = "started" ∨ ns = "stopped")
    (hall : ∀ n ∈ (env.openP proj).nodes, n.status = ns) :
    mainProject env p = (Outcome.ok false,
      [PEvent.session, PEvent.getProject ref, PEvent.openProject]) := by
  have hv : ¬(p.projectName = none ∧ p.projectId = none) := by
    rintro ⟨h1, h2⟩
    rw [h1, h2] at hres
    simp [resolveRef] at hres
  have hnsv : nodes_state_verification ns p.nodesStrategy p.nodesDelay
      p.pollWaitTime (env.openP proj) = (false, []) := by
    rcases hns2 with h | h <;> subst h <;>
      simp [nodes_state_verification] <;>
      intro n hn hstn <;>
      rw [hall n hn] at hstn <;>
      exact absurd hstn (by decide)
  simp [mainProject, hv, hcm, hres, dispatch, hst, hget, openedExisting,
    hstatus, hns, hnsv]

/-- Witness for C9: a closed project whose only node is already started
converges to opened+started with changed=false while OpenProject is in the
trace. -/
theorem opened_changed_reflects_nodes_only_witness :
    mainProject (envWith (Project.mk "closed" [Node.mk "a" "started"]))
        (Params.mk "opened" (some "lab") none (some "started") "all" 10 5
          none none false) =
      (Outcome.ok false,
        [PEvent.session, PEvent.getProject (Ref.byName "lab"),
          PEvent.openProject]) :=
  opened_changed_reflects_nodes_only
    (envWith (Project.mk "closed" [Node.mk "a" "started"]))
    (Params.mk "opened" (some "lab") none (some "started") "all" 10 5
      none none false)
    (Ref.byName "lab") (Project.mk "closed" [Node.mk "a" "started"]) "started"
    rfl rfl rfl rfl (by decide) rfl (Or.inl rfl) (by decide)

/-- On a remote whose node creation always succeeds, the nodes_spec loop of
the present branch creates exactly the specs whose name is absent from the
name list observed before the loop, in declared order, and its changed
result is the accumulator joined with whether any spec was applied. -/
theorem createNodesLoop_spec (env : Env) (already : List String)
    (hok : ∀ spec proj, ∃ proj2, env.createNodeR spec proj = Except.ok proj2) :
    ∀ (specs : List NodeSpec) (proj : Project) (changed : Bool),
    ∃ projF, createNodesLoop env already specs proj changed =
      (Except.ok (changed || specs.any (fun s => decide (s.name ∉ already)), projF),
        specs.flatMap (fun s =>
          if s.name ∈ already then []
          else [PEvent.openProject, PEvent.createNode s.name])) := by
  intro specs
  induction specs with
  | nil =>
    intro proj changed
    exact ⟨proj, by simp [createNodesLoop]⟩
  | cons spec rest ih =>
    intro proj changed
    by_cases hmem : spec.name ∈ already
    · obtain ⟨projF, hF⟩ := ih proj changed
      exact ⟨projF, by simp [createNodesLoop, hmem, hF]⟩
    · obtain ⟨proj2, h2⟩ := hok spec (env.openP proj)
      obtain ⟨projF, hF⟩ := ih proj2 true
      refine ⟨projF, ?_⟩
      simp [createNodesLoop, hmem, h2, hF]

/-- Claim C7: converging an existing project to present with a nodes_spec
issues a node-create call exactly for the specs whose name is missing from
the node set observed at the start of the run, and exits changed=true
precisely when at least one spec was applied. -/
theorem present_existing_node_idempotency (env : Env) (p : Params)
    (ref : Ref) (proj : Project) (specs : List NodeSpec)
    (hres : resolveRef p.projectName p.projectId = some ref)
    (hcm : p.checkMode = false)
    (hst : p.state = "present")
    (hget : env.getProject ref = Except.ok proj)
    (hns : p.nodesSpec = some specs)
    (hls : p.linksSpec = none)
    (hok : ∀ spec pr, ∃ pr2, env.createNodeR spec pr = Except.ok pr2) :
    mainProject env p =
      (Outcome.ok (specs.any (fun s =>
          decide (s.name ∉ proj.nodes.map (fun n => n.name)))),
        PEvent.session :: PEvent.getProject ref ::
          specs.flatMap (fun s =>
            if s.name ∈ proj.nodes.map (fun n => n.name) then []
            else [PEvent.openProject, PEvent.createNode s.name])) := by
  have hv : ¬(p.projectName = none ∧ p.projectId = none) := by
    rintro ⟨h1, h2⟩
    rw [h1, h2] at hres
    simp [resolveRef] at hres
  obtain ⟨projF, hF⟩ :=
    createNodesLoop_spec env (proj.nodes.map (fun n => n.name)) hok specs proj false
  simp [mainProject, hv, hcm, hres, dispatch, hst, hget, presentExisting,
    hns, hls, hF]

/-- Witness for C7: of two declared specs over a project already holding
node a, only node b is created and the run reports changed=true. -/
theorem present_existing_node_idempotency_witness :
    mainProject (envWith (Project.mk "opened" [Node.mk "a" "started"]))
        (Params.mk "present" (some "lab") none none "all" 10 5
          (some [NodeSpec.mk "a" "docker" "alpine",
                 NodeSpec.mk "b" "docker" "alpine"]) none false) =
      (Outcome.ok true,
        [PEvent.session, PEvent.getProject (Ref.byName "lab"),
          PEvent.openProject, PEvent.createNode "b"]) := by
  have h := present_existing_node_idempotency
    (envWith (Project.mk "opened" [Node.mk "a" "started"]))
    (Params.mk "present" (some "lab") none none "all" 10 5
      (some [NodeSpec.mk "a" "docker" "alpine",
             NodeSpec.mk "b" "docker" "alpine"]) none false)
    (Ref.byName "lab") (Project.mk "opened" [Node.mk "a" "started"])
    [NodeSpec.mk "a" "docker" "alpine", NodeSpec.mk "b" "docker" "alpine"]
    rfl rfl rfl rfl rfl rfl (fun spec pr => ⟨pr, rfl⟩)
  rw [h]
  rfl

/-- A parameter set supplying BOTH a project name and a project id. -/
def pBothRefs : Params :=
  Params.mk "absent" (some "lab1") (some "11111111-2222") none "all" 10 5
    none none false

/-- Counterexample to C8 as stated: an invocation supplying both the name
and the id of the project pair is not rejected by the pre-remote
validation; it proceeds to the remote (session plus fetch, resolved by
name) and exits ok, so "exactly one of the pair must be supplied" does not
hold of the code, whose required_one_of check only demands at least one. -/
theorem exactly_one_ref_counterexample :
    pBothRefs.projectName = some "lab1" ∧
    pBothRefs.projectId = some "11111111-2222" ∧
    mainProject envNone pBothRefs =
      (Outcome.ok false,
        [PEvent.session, PEvent.getProject (Ref.byName "lab1")]) := by
  refine ⟨rfl, rfl, ?_⟩
  rfl

/-- Claim C8 (amended): at least one of each name/id pair must be supplied,
enforced before any remote call in all three modules (a missing pair fails
with an empty trace); supplying both is accepted, and the name then takes
precedence for resolution, as witnessed by the reference recorded in the
project fetch event. -/
theorem reference_validation_and_precedence (env : Env) (p : Params)
    (nenv : NodeEnv) (np : NodeParams) (senv : SnapEnv) (sp : SnapParams) :
    (p.projectName = none → p.projectId = none →
      mainProject env p = (Outcome.failed projectRefMissingMsg, [])) ∧
    (np.projectName = none → np.projectId = none →
      mainNode nenv np = (NodeOutcome.failed projectRefMissingMsg, [])) ∧
    (np.nodeName = none → np.nodeId = none →
      (mainNode nenv np).2 = [] ∧
      ∃ m, (mainNode nenv np).1 = NodeOutcome.failed m) ∧
    (sp.projectName = none → sp.projectId = none →
      mainSnapshot senv sp = (Outcome.failed projectRefMissingMsg, [])) ∧
    (sp.snapshotName = none → sp.snapshotId = none →
      (mainSnapshot senv sp).2 = [] ∧
      ∃ m, (mainSnapshot senv sp).1 = Outcome.failed m) ∧
    (∀ n i, resolveRef (some n) i = some (Ref.byName n)) ∧
    (∀ nm, p.projectName = some nm → p.checkMode = false →
      ∃ out tr, mainProject env p =
        (out, PEvent.session :: PEvent.getProject (Ref.byName nm) :: tr)) := by
  refine ⟨fun h1 h2 => ?_, fun h1 h2 => ?_, fun h1 h2 => ?_, fun h1 h2 => ?_,
    fun h1 h2 => ?_, fun n i => rfl, fun nm h1 h2 => ?_⟩
  · simp [mainProject, h1, h2]
  · simp [mainNode, h1, h2]
  · by_cases hp : np.projectName = none ∧ np.projectId = none
    · refine ⟨?_, projectRefMissingMsg, ?_⟩ <;>
        simp [mainNode, hp.1, hp.2]
    · refine ⟨?_, nodeRefMissingMsg, ?_⟩ <;>
        simp [mainNode, h1, h2, hp]
  · simp [mainSnapshot, h1, h2]
  · by_cases hp : sp.projectName = none ∧ sp.projectId = none
    · refine ⟨?_, projectRefMissingMsg, ?_⟩ <;>
        simp [mainSnapshot, hp.1, hp.2]
    · refine ⟨?_, snapshotRefMissingMsg, ?_⟩ <;>
        simp [mainSnapshot, h1, h2, hp]
  · have hv : ¬(p.projectName = none ∧ p.projectId = none) := by
      rintro ⟨ha, _⟩
      rw [h1] at ha
      cases ha
    refine ⟨(dispatch env p (Ref.byName nm)
        (env.getProject (Ref.byName nm))).1,
      (dispatch env p (Ref.byName nm) (env.getProject (Ref.byName nm))).2, ?_⟩
    simp [mainProject, hv, h1, h2, resolveRef]

/-- Witness for the amended C8: a run missing both project references
fails before any remote event. -/
theorem reference_validation_and_precedence_witness :
    mainProject envNone
        (Params.mk "opened" none none none "all" 10 5 none none false) =
      (Outcome.failed projectRefMissingMsg, []) :=
  (reference_validation_and_precedence envNone
    (Params.mk "opened" none none none "all" 10 5 none none false)
    (NodeEnv.mk (fun _ => Except.error "x") id
      (fun _ _ => Except.ok none) (fun _ n => n))
    (NodeParams.mk "started" none none none none false 5 false)
    senvMissing
    (SnapParams.mk "present" none none none none)).1 rfl rfl

/-- A check-mode parameter set that fails the required_one_of validation. -/
def pCheckInvalid : Params :=
  Params.mk "present" none none none "all" 10 5 none none true

/-- Counterexample to C10 as stated: with check mode enabled but both
project references missing, the module fails the AnsibleModule parameter
validation (which runs before the check-mode early exit) instead of
exiting successfully with changed=false. -/
theorem check_mode_counterexample :
    pCheckInvalid.checkMode = true ∧
    mainProject envNone pCheckInvalid =
      (Outcome.failed projectRefMissingMsg, []) ∧
    (mainProject envNone pCheckInvalid).1 ≠ Outcome.ok false := by
  refine ⟨rfl, rfl, ?_⟩
  decide

/-- Claim C10 (amended): with check mode enabled the project module never
records any event, remote session included, and every input that passes
the parameter validation exits successfully with changed=false. -/
theorem check_mode_no_remote_calls (env : Env) (p : Params)
    (hcm : p.checkMode = true) :
    (mainProject env p).2 = [] ∧
    (¬(p.projectName = none ∧ p.projectId = none) →
      mainProject env p = (Outcome.ok false, [])) := by
  by_cases hv : p.projectName = none ∧ p.projectId = none
  · refine ⟨?_, fun h => absurd hv h⟩
    simp [mainProject, hv.1, hv.2]
  · have : mainProject env p = (Outcome.ok false, []) := by
      simp [mainProject, hv, hcm]
    exact ⟨by rw [this], fun _ => this⟩

/-- Witness for the amended C10: a valid check-mode input exits
changed=false with an empty trace. -/
theorem check_mode_no_remote_calls_witness :
    mainProject envNone
        (Params.mk "present" (some "lab") none none "all" 10 5 none none true) =
      (Outcome.ok false, []) :=
  (check_mode_no_remote_calls envNone
    (Params.mk "present" (some "lab") none none "all" 10 5 none none true)
    rfl).2 (by simp)

end GNS3
